import Mathlib

/-!
Verification of the search-popover pattern compiler and history cache of
`src/terminal-search-popover.c` (gnome-terminal).

The C file's logic is shallowly embedded: the GtkListStore-backed history
becomes a `List String`, the popover's private struct becomes `PopoverState`,
and the callbacks (`update_regex`, `perform_search`, `search_text_changed_cb`,
the toggle handlers) become pure state-transformers.  The external regex
engine (PCRE2 / GRegex) is abstracted by a compile oracle saying whether a
pattern compiles; the compiled matcher handle is modelled by the
`CompiledRegex` record of the pattern text and the flags it was compiled with.
-/

namespace SearchPopover

/-! ## History store (lines 98-183 of terminal-search-popover.c) -/

/-- `#define HISTORY_MIN_ITEM_LEN (3)` (line 100). -/
def HISTORY_MIN_ITEM_LEN : Int := 3

/-- `#define HISTORY_LENGTH (10)` (line 101). -/
def HISTORY_LENGTH : Int := 10

/-- `history_remove_item` (lines 122-143): walk the store front to back,
remove the first row whose text equals `text`, and report whether a row was
removed.  The first component is the C function's return value, the second
the store after the call. -/
def historyRemoveItem (text : String) : List String → Bool × List String
  | [] => (false, [])
  | x :: xs =>
    if x = text then (true, xs)
    else
      let r := historyRemoveItem text xs
      (r.1, x :: r.2)

/-- `history_clamp` (lines 145-160): build a tree path for row index
`max - 1`; if that row exists, remove it and every following row.  Hence the
first `max - 1` rows are kept.  When the path index is negative or past the
end, `gtk_tree_model_get_iter` fails and the store is untouched, which
coincides with `List.take` for the in-range case. -/
def historyClamp (max : Int) (store : List String) : List String :=
  if 0 ≤ max - 1 then store.take (max - 1).toNat else store

/-- `history_insert_item` (lines 162-183).  `enabled` is the result of
`history_enabled ()` (an external GtkSettings preference); `text` is never
NULL at the call sites, and `g_utf8_strlen` is the length in Unicode code
points, i.e. `String.length`.  If the text was already present it is removed
first; otherwise the store is clamped to `HISTORY_LENGTH - 1`; finally the
text is inserted at row 0. -/
def historyInsertItem (enabled : Bool) (text : String) (store : List String) : List String :=
  if !enabled then store
  else if (text.length : Int) ≤ HISTORY_MIN_ITEM_LEN then store
  else
    let r := historyRemoveItem text store
    let store' := if r.1 then r.2 else historyClamp (HISTORY_LENGTH - 1) store
    text :: store'

/-! ## Pattern compiler (lines 52-96 and 185-355) -/

/-- The characters GLib's `g_regex_escape_string` prefixes with a backslash.
Modelled from the spec: `g_regex_escape_string` is external library code
(GLib), not part of this repository; the spec requires that literal mode
"escape all regex metacharacters in `raw_text` literally". -/
def regexMetachars : List Char :=
  ['\\', '|', '(', ')', '[', ']', '\x7b', '\x7d', '^', '$', '*', '+', '?', '.']

/-- Whether `g_regex_escape_string` escapes the character `c`. -/
def isRegexMeta (c : Char) : Bool := regexMetachars.contains c

/-- Character-list worker for `gRegexEscapeString`. -/
def escapeChars : List Char → List Char
  | [] => []
  | c :: rest => if isRegexMeta c then '\\' :: c :: escapeChars rest else c :: escapeChars rest

/-- Modelled from the spec: GLib's `g_regex_escape_string` (external to this
repository), used at line 270; prefixes every regex metacharacter with a
backslash and leaves all other characters unchanged. -/
def gRegexEscapeString (s : String) : String := String.mk (escapeChars s.data)

/-- The compiled matcher handle (`VteRegex *` / `GRegex *`), identified by
the pattern text and the compile flags it was built from. -/
structure CompiledRegex where
  pattern : String
  caseless : Bool
  multiline : Bool
deriving DecidableEq, Repr

/-- The fields of `TerminalSearchPopoverPrivate` (lines 52-76) relevant to
the search logic, together with the states of the template widgets the code
reads (`search_entry` text and the four check buttons).  `prevSensitive` and
`nextSensitive` are the sensitivity of the prev/next buttons set by
`update_sensitivity`. -/
structure PopoverState where
  searchText : String
  matchCase : Bool
  entireWord : Bool
  regexMode : Bool
  searchTextChanged : Bool
  regexCaseless : Bool
  regexMultiline : Bool
  regexPattern : Option String
  regex : Option CompiledRegex
  prevSensitive : Bool
  nextSensitive : Bool
deriving DecidableEq, Repr

/-- The effective caseless flag derived in `update_regex` (line 264):
`caseless = !gtk_toggle_button_get_active (match_case_checkbutton)`. -/
def deriveCaseless (s : PopoverState) : Bool := !s.matchCase

/-- The effective multiline flag derived in `update_regex` (lines 258, 268):
initialised FALSE and set TRUE exactly in the regex-mode branch. -/
def deriveMultiline (s : PopoverState) : Bool := s.regexMode

/-- The effective pattern derived in `update_regex` (lines 266-278): verbatim
text in regex mode, escaped text otherwise, then wrapped in `\b...\b` when
the entire-word option is on. -/
def derivePattern (s : PopoverState) : String :=
  let base := if s.regexMode then s.searchText else gRegexEscapeString s.searchText
  if s.entireWord then "\\b" ++ base ++ "\\b" else base

/-- The derived (pattern, caseless, multiline) triple of a call to
`update_regex`. -/
def derivedTriple (s : PopoverState) : String × Bool × Bool :=
  (derivePattern s, deriveCaseless s, deriveMultiline s)

/-- The (pattern, caseless, multiline) triple a compiled matcher was actually
built from. -/
def regexTriple (r : CompiledRegex) : String × Bool × Bool :=
  (r.pattern, r.caseless, r.multiline)

/-- Whether the underlying regex engine accepts (pattern, caseless,
multiline); abstracts `vte_regex_new` / `g_regex_new` at lines 306/320. -/
def CompileOracle := String → Bool → Bool → Bool

/-- Result of one `update_regex` call: the new private state, whether the
early cache return was skipped (so the matcher was released/regenerated),
whether `g_object_notify_by_pspec (pspecs[PROP_REGEX])` ran (line 330), and
whether any compile error was shown to the user (the code never does,
line 295: `/* FIXME: if comping the regex fails, show the error message
somewhere */`). -/
structure UpdateResult where
  state : PopoverState
  recompiled : Bool
  notified : Bool
  errorSurfaced : Bool
deriving DecidableEq, Repr

/-- `update_sensitivity` (lines 187-197): both navigation buttons are made
sensitive iff a compiled regex exists. -/
def updateSensitivity (s : PopoverState) : PopoverState :=
  let can := s.regex.isSome
  { s with prevSensitive := can, nextSensitive := can }

/-- The early-return comparison of `update_regex` (lines 280-282): the
derived values are compared against the cached fields `regex_caseless`,
`regex_multiline` and `regex_pattern` (`g_strcmp0` of a possibly-NULL cached
pattern with the never-NULL derived pattern). -/
def cacheHit (s : PopoverState) : Bool :=
  s.regexCaseless == deriveCaseless s && s.regexMultiline == deriveMultiline s
    && s.regexPattern == some (derivePattern s)

/-- `update_regex` (lines 253-331).  Note that the cached flag fields
`regex_caseless` and `regex_multiline` are compared at lines 280-281 but are
never assigned anywhere in the file after their initialisation to FALSE
(line 368); the embedding reproduces that. -/
def updateRegex (ok : CompileOracle) (s : PopoverState) : UpdateResult :=
  if cacheHit s then
    { state := s, recompiled := false, notified := false, errorSurfaced := false }
  else
    let pattern := derivePattern s
    let caseless := deriveCaseless s
    let multiline := deriveMultiline s
    let s1 := { s with regexPattern := none }
    let s2 :=
      if s.searchText ≠ "" then
        if ok pattern caseless multiline then
          { s1 with
              regex := some { pattern := pattern, caseless := caseless, multiline := multiline },
              regexPattern := some pattern }
        else { s1 with regex := none }
      else { s1 with regex := none }
    { state := updateSensitivity s2, recompiled := true, notified := true, errorSurfaced := false }

/-- `search_text_changed_cb` (lines 333-341): the entry text has just become
`newText`; run `update_regex`, then set the dirty flag. -/
def searchTextChangedCb (ok : CompileOracle) (newText : String) (s : PopoverState) : UpdateResult :=
  let r := updateRegex ok { s with searchText := newText }
  { r with state := { r.state with searchTextChanged := true } }

/-- `search_parameters_changed_cb` (lines 343-348) for the match-case check
button: the toggle has just changed to `b`; run `update_regex`. -/
def matchCaseToggledCb (ok : CompileOracle) (b : Bool) (s : PopoverState) : UpdateResult :=
  updateRegex ok { s with matchCase := b }

/-- `search_parameters_changed_cb` for the entire-word check button. -/
def entireWordToggledCb (ok : CompileOracle) (b : Bool) (s : PopoverState) : UpdateResult :=
  updateRegex ok { s with entireWord := b }

/-- `search_parameters_changed_cb` for the regex check button. -/
def regexToggledCb (ok : CompileOracle) (b : Bool) (s : PopoverState) : UpdateResult :=
  updateRegex ok { s with regexMode := b }

/-- Observable events of one `perform_search` call, in order. -/
inductive SearchEvent where
  | historyCommit (text : String)
  | searchSignal (backward : Bool)
deriving DecidableEq, Repr

/-- Result of one `perform_search` call. -/
structure SearchResult where
  state : PopoverState
  store : List String
  events : List SearchEvent
deriving DecidableEq, Repr

/-- `perform_search` (lines 199-219): no-op when no regex is compiled;
otherwise, when the text changed since the last commit, insert the current
entry text into the history store and clear the dirty flag; then emit the
"search" signal with the direction. -/
def performSearch (enabled : Bool) (s : PopoverState) (store : List String)
    (backward : Bool) : SearchResult :=
  if s.regex = none then { state := s, store := store, events := [] }
  else if s.searchTextChanged then
    { state := { s with searchTextChanged := false },
      store := historyInsertItem enabled s.searchText store,
      events := [SearchEvent.historyCommit s.searchText, SearchEvent.searchSignal backward] }
  else { state := s, store := store, events := [SearchEvent.searchSignal backward] }

/-- `terminal_search_popover_init` (lines 361-423): empty entry, all toggles
off, `regex_pattern = 0`, `regex_caseless = regex_multiline = FALSE`, the
GObject-zeroed `search_text_changed` and `regex`, and the initial
`update_sensitivity` call (regex NULL, so both buttons insensitive). -/
def initialState : PopoverState :=
  { searchText := "", matchCase := false, entireWord := false, regexMode := false,
    searchTextChanged := false, regexCaseless := false, regexMultiline := false,
    regexPattern := none, regex := none, prevSensitive := false, nextSensitive := false }

/-- The user-interface events that drive the popover. -/
inductive Action where
  | setText (t : String)
  | toggleMatchCase (b : Bool)
  | toggleEntireWord (b : Bool)
  | toggleRegexMode (b : Bool)
  | doSearch (enabled : Bool) (backward : Bool)

/-- One step of the popover: each UI event runs its C callback. -/
def step (ok : CompileOracle) (s : PopoverState) : Action → PopoverState
  | Action.setText t => (searchTextChangedCb ok t s).state
  | Action.toggleMatchCase b => (matchCaseToggledCb ok b s).state
  | Action.toggleEntireWord b => (entireWordToggledCb ok b s).state
  | Action.toggleRegexMode b => (regexToggledCb ok b s).state
  | Action.doSearch enabled backward => (performSearch enabled s [] backward).state

/-- States reachable from a freshly initialised popover by UI events. -/
inductive Reachable (ok : CompileOracle) : PopoverState → Prop where
  | init : Reachable ok initialState
  | succ {s : PopoverState} : Reachable ok s → ∀ a, Reachable ok (step ok s a)

/-- A compile oracle that accepts every pattern. -/
def okAll : CompileOracle := fun _ _ _ => true

/-- A compile oracle that rejects every pattern. -/
def okNone : CompileOracle := fun _ _ _ => false

/-- Modelled from the spec: the effective-pattern derivation of §4.1, stated
on the raw inputs ("escape all regex metacharacters" when `use_regex` is
false, verbatim text when it is true, then `\b...\b` wrapping for
whole-word). -/
def specEffectivePattern (rawText : String) (wholeWord useRegex : Bool) : String :=
  let p := if useRegex then rawText else gRegexEscapeString rawText
  if wholeWord then "\\b" ++ p ++ "\\b" else p

/-! ## Basic lemmas about `update_regex` -/

/-- On a cache hit, `update_regex` returns immediately: state untouched, no
recompilation, no notification. -/
theorem updateRegex_hit (ok : CompileOracle) (s : PopoverState) (h : cacheHit s = true) :
    updateRegex ok s = { state := s, recompiled := false, notified := false,
                         errorSurfaced := false } := by
  unfold updateRegex
  rw [h]
  rfl

/-- On a cache miss, `update_regex` releases the old matcher, clears the
cached pattern, recompiles (or clears) according to the text and the engine,
refreshes sensitivity, and notifies. -/
theorem updateRegex_miss (ok : CompileOracle) (s : PopoverState) (h : cacheHit s = false) :
    updateRegex ok s =
      { state := updateSensitivity (
          if s.searchText ≠ "" then
            if ok (derivePattern s) (deriveCaseless s) (deriveMultiline s) then
              { s with
                  regexPattern := some (derivePattern s),
                  regex := some { pattern := derivePattern s, caseless := deriveCaseless s,
                                  multiline := deriveMultiline s } }
            else { s with regexPattern := none, regex := none }
          else { s with regexPattern := none, regex := none }),
        recompiled := true, notified := true, errorSurfaced := false } := by
  unfold updateRegex
  rw [h]
  rfl

/-- The state produced by `update_regex` is either untouched (cache hit) or
differs from the input state only in the regex fields and the button
sensitivities. -/
theorem updateRegex_state_cases (ok : CompileOracle) (s : PopoverState) :
    (updateRegex ok s).state = s ∨
    ∃ rp rx p n, (updateRegex ok s).state =
      { s with regexPattern := rp, regex := rx, prevSensitive := p, nextSensitive := n } := by
  cases hc : cacheHit s with
  | true => exact Or.inl (by rw [updateRegex_hit ok s hc])
  | false =>
    rw [updateRegex_miss ok s hc]
    dsimp only
    split
    · split
      · exact Or.inr ⟨_, _, _, _, rfl⟩
      · exact Or.inr ⟨_, _, _, _, rfl⟩
    · exact Or.inr ⟨_, _, _, _, rfl⟩

/-- `update_regex` never changes the entry text. -/
theorem updateRegex_state_searchText (ok : CompileOracle) (s : PopoverState) :
    (updateRegex ok s).state.searchText = s.searchText := by
  rcases updateRegex_state_cases ok s with h | ⟨rp, rx, p, n, h⟩ <;> rw [h]

/-! ## C2: effective-pattern derivation -/

/-- C2: for every raw search text and option combination, the effective
pattern is the raw text with all regex metacharacters escaped when
`use_regex` is off (multiline false) and the verbatim text when it is on
(multiline true), wrapped as `\b<pattern>\b` when `whole_word` is on, and
the caseless flag is the negation of case-sensitive; in particular
`compile("cat", whole_word=true, use_regex=false)` derives `\bcat\b`, and
literal mode escapes the metacharacters of `"a.b*"`. -/
theorem C2_effective_pattern (s : PopoverState) :
    derivePattern s = specEffectivePattern s.searchText s.entireWord s.regexMode ∧
    deriveMultiline s = s.regexMode ∧
    deriveCaseless s = !s.matchCase ∧
    derivePattern { s with searchText := "cat", entireWord := true, regexMode := false } =
      "\\bcat\\b" ∧
    gRegexEscapeString "a.b*" = "a\\.b\\*" :=
  ⟨rfl, rfl, rfl, rfl, rfl⟩

/-! ## C7: history minimum length -/

/-- C7: a history insert of a string of at most 3 Unicode code points leaves
the store unchanged, while an eligible string of 4 or more code points is
inserted at the front. -/
theorem C7_history_min_item_len (enabled : Bool) (text : String) (store : List String) :
    ((text.length : Int) ≤ HISTORY_MIN_ITEM_LEN → historyInsertItem enabled text store = store) ∧
    (HISTORY_MIN_ITEM_LEN < (text.length : Int) →
      (historyInsertItem true text store).head? = some text) := by
  constructor
  · intro h
    cases enabled with
    | false => rfl
    | true =>
      unfold historyInsertItem
      rw [if_neg (by simp), if_pos h]
  · intro h
    unfold historyInsertItem
    rw [if_neg (by simp), if_neg (not_le.mpr h)]
    rfl

/-- Witness for C7 at the spec's concrete inputs: "ab" and "abc" are
rejected, "abcd" is accepted. -/
theorem C7_history_min_item_len_witness :
    (("ab".length : Int) ≤ HISTORY_MIN_ITEM_LEN ∧
      historyInsertItem true "ab" ["seedling"] = ["seedling"]) ∧
    (("abc".length : Int) ≤ HISTORY_MIN_ITEM_LEN ∧
      historyInsertItem true "abc" ["seedling"] = ["seedling"]) ∧
    (HISTORY_MIN_ITEM_LEN < ("abcd".length : Int) ∧
      (historyInsertItem true "abcd" ["seedling"]).head? = some "abcd") :=
  ⟨⟨by decide, (C7_history_min_item_len true "ab" ["seedling"]).1 (by decide)⟩,
   ⟨by decide, (C7_history_min_item_len true "abc" ["seedling"]).1 (by decide)⟩,
   ⟨by decide, (C7_history_min_item_len true "abcd" ["seedling"]).2 (by decide)⟩⟩

/-! ## C4: history capacity (code bug) -/

/-- Eleven distinct insertion-eligible search terms (each 4 code points). -/
def elevenTerms : List String :=
  ["t01x", "t02x", "t03x", "t04x", "t05x", "t06x", "t07x", "t08x", "t09x", "t10x", "t11x"]

/-- C4 (evaluation at the failing input): the claim says a full store is
truncated to 9 entries before insertion so that 11 distinct eligible inserts
leave exactly 10 entries.  The code's `history_clamp (HISTORY_LENGTH - 1)`
deletes from tree-path index `max - 1 = 8` onwards, keeping only 8 rows, so
11 distinct eligible inserts leave 9 entries (the two oldest evicted), never
10. -/
theorem C4_capacity_code_eval :
    elevenTerms.Nodup ∧
    (∀ t ∈ elevenTerms, HISTORY_MIN_ITEM_LEN < (t.length : Int)) ∧
    elevenTerms.foldl (fun st t => historyInsertItem true t st) [] =
      ["t11x", "t10x", "t09x", "t08x", "t07x", "t06x", "t05x", "t04x", "t03x"] ∧
    (elevenTerms.foldl (fun st t => historyInsertItem true t st) []).length = 9 ∧
    (elevenTerms.foldl (fun st t => historyInsertItem true t st) []).length ≠ 10 ∧
    historyClamp (HISTORY_LENGTH - 1)
        ["h01x", "h02x", "h03x", "h04x", "h05x", "h06x", "h07x", "h08x", "h09x", "h10x"] =
      ["h01x", "h02x", "h03x", "h04x", "h05x", "h06x", "h07x", "h08x"] := by
  decide

/-! ## C1: cache-reuse rule (code bug) -/

/-- The popover state after turning match-case on, enabling regex mode and
typing `abcd` (all through the C callbacks, with an engine that accepts
every pattern): the matcher is compiled from the triple
(`abcd`, caseless=false, multiline=true). -/
def c1Typed : PopoverState :=
  (searchTextChangedCb okAll "abcd"
    (regexToggledCb okAll true (matchCaseToggledCb okAll true initialState).state).state).state

/-- The `update_regex` call made when regex mode is then toggled off. -/
def c1RegexOff : UpdateResult := regexToggledCb okAll false c1Typed

/-- The `update_regex` call made when regex mode is toggled back on. -/
def c1RegexOn : UpdateResult := regexToggledCb okAll true c1RegexOff.state

/-- C1 (evaluation at the failing input): after compiling `abcd` in regex
mode, toggling regex mode off derives the triple (`abcd`, false, false),
different from the cached compiled matcher's triple (`abcd`, false, true) —
yet `update_regex` takes the early return (no recompilation, no
notification) and keeps the stale multiline matcher, because the cached
flag fields compared at lines 280-281 are never updated and remain FALSE.
Toggling regex mode back on derives exactly the compiled matcher's triple
(`abcd`, false, true) — yet the matcher is recompiled and the notification
emitted.  Both halves of the claim fail. -/
theorem C1_cache_reuse_code_eval :
    c1Typed.regex = some { pattern := "abcd", caseless := false, multiline := true } ∧
    derivedTriple { c1Typed with regexMode := false } ≠
      regexTriple { pattern := "abcd", caseless := false, multiline := true } ∧
    c1RegexOff.recompiled = false ∧
    c1RegexOff.notified = false ∧
    c1RegexOff.state.regex = some { pattern := "abcd", caseless := false, multiline := true } ∧
    derivedTriple { c1RegexOff.state with regexMode := true } =
      regexTriple { pattern := "abcd", caseless := false, multiline := true } ∧
    c1RegexOn.recompiled = true ∧
    c1RegexOn.notified = true := by
  decide

/-! ## C3: history deduplication -/

/-- The store after `history_remove_item` is the store with the first
occurrence of the text erased. -/
theorem historyRemoveItem_snd (text : String) (l : List String) :
    (historyRemoveItem text l).2 = l.erase text := by
  induction l with
  | nil => rfl
  | cons x xs ih =>
    by_cases hx : x = text
    · simp [historyRemoveItem, hx, List.erase_cons]
    · simp [historyRemoveItem, hx, List.erase_cons, ih]

/-- `history_remove_item` reports removal exactly when the text was in the
store. -/
theorem historyRemoveItem_fst (text : String) (l : List String) :
    (historyRemoveItem text l).1 = true ↔ text ∈ l := by
  induction l with
  | nil => simp [historyRemoveItem]
  | cons x xs ih =>
    by_cases hx : x = text
    · simp [historyRemoveItem, hx]
    · have hx' : ¬ text = x := fun h => hx h.symm
      simp [historyRemoveItem, hx, ih, List.mem_cons, hx']

/-- `history_clamp (HISTORY_LENGTH - 1)` keeps the first 8 rows. -/
theorem historyClamp_hl (store : List String) :
    historyClamp (HISTORY_LENGTH - 1) store = store.take 8 := rfl

/-- C3: inserting into a duplicate-free store keeps it duplicate-free, and
inserting a string already present (and eligible) removes the existing
occurrence and reinserts the string at the front. -/
theorem C3_history_dedup (enabled : Bool) (text : String) (store : List String)
    (h : store.Nodup) :
    (historyInsertItem enabled text store).Nodup ∧
    (text ∈ store → HISTORY_MIN_ITEM_LEN < (text.length : Int) →
      historyInsertItem true text store = text :: store.erase text) := by
  constructor
  · cases enabled with
    | false => exact h
    | true =>
      by_cases hlen : (text.length : Int) ≤ HISTORY_MIN_ITEM_LEN
      · unfold historyInsertItem
        rw [if_neg (by simp), if_pos hlen]
        exact h
      · unfold historyInsertItem
        rw [if_neg (by simp), if_neg hlen]
        dsimp only
        by_cases hm : text ∈ store
        · rw [if_pos ((historyRemoveItem_fst text store).mpr hm), historyRemoveItem_snd]
          exact List.nodup_cons.mpr
            ⟨fun hmem => ((h.mem_erase_iff).mp hmem).1 rfl, h.erase text⟩
        · rw [if_neg (fun hc => hm ((historyRemoveItem_fst text store).mp hc)),
              historyClamp_hl]
          exact List.nodup_cons.mpr
            ⟨fun hmem => hm (List.take_subset 8 store hmem),
             (List.take_sublist 8 store).nodup h⟩
  · intro hm hlen
    unfold historyInsertItem
    rw [if_neg (by simp), if_neg (not_le.mpr hlen)]
    dsimp only
    rw [if_pos ((historyRemoveItem_fst text store).mpr hm), historyRemoveItem_snd]

/-- Witness for C3 at the spec's concrete input: inserting "hello", "world",
"hello" yields exactly ["hello", "world"]. -/
theorem C3_history_dedup_witness :
    (["world", "hello"] : List String).Nodup ∧
    historyInsertItem true "hello" (historyInsertItem true "world"
      (historyInsertItem true "hello" [])) = ["hello", "world"] ∧
    ((historyInsertItem true "hello" ["world", "hello"]).Nodup ∧
      ("hello" ∈ (["world", "hello"] : List String) →
        HISTORY_MIN_ITEM_LEN < (("hello".length : Nat) : Int) →
        historyInsertItem true "hello" ["world", "hello"] =
          "hello" :: (["world", "hello"] : List String).erase "hello")) :=
  ⟨by decide, by decide, C3_history_dedup true "hello" ["world", "hello"] (by decide)⟩

/-! ## C6: search dispatch -/

/-- C6: `perform_search` is a no-op when no compiled pattern exists; when
one exists and the dirty flag is set, the current raw text is committed to
the history store and the commit event precedes the directional search
signal. -/
theorem C6_search_dispatch (enabled : Bool) (s : PopoverState) (store : List String)
    (backward : Bool) :
    (s.regex = none → performSearch enabled s store backward =
      { state := s, store := store, events := [] }) ∧
    (s.regex ≠ none → s.searchTextChanged = true →
      performSearch enabled s store backward =
        { state := { s with searchTextChanged := false },
          store := historyInsertItem enabled s.searchText store,
          events := [SearchEvent.historyCommit s.searchText,
                     SearchEvent.searchSignal backward] }) := by
  constructor
  · intro h
    unfold performSearch
    rw [if_pos h]
  · intro h hd
    unfold performSearch
    rw [if_neg h, if_pos hd]

/-- A dirty popover state holding a compiled pattern for `abcd`. -/
def c6Dirty : PopoverState :=
  { initialState with
    searchText := "abcd", searchTextChanged := true,
    regex := some { pattern := "abcd", caseless := true, multiline := false } }

/-- Witness for C6: concrete no-op dispatch (no pattern) and concrete
commit-then-signal dispatch (pattern present, dirty flag set). -/
theorem C6_search_dispatch_witness :
    (c6Dirty.regex ≠ none ∧ c6Dirty.searchTextChanged = true ∧
      performSearch true c6Dirty ["seed"] false =
        { state := { c6Dirty with searchTextChanged := false },
          store := historyInsertItem true c6Dirty.searchText ["seed"],
          events := [SearchEvent.historyCommit c6Dirty.searchText,
                     SearchEvent.searchSignal false] }) ∧
    (initialState.regex = none ∧
      performSearch true initialState ["seed"] true =
        { state := initialState, store := ["seed"], events := [] }) :=
  ⟨⟨by decide, rfl, (C6_search_dispatch true c6Dirty ["seed"] false).2 (by decide) rfl⟩,
   ⟨rfl, (C6_search_dispatch true initialState ["seed"] true).1 rfl⟩⟩

/-! ## C8: failed compilation -/

/-- C8: when a compilation attempt on non-empty text fails, the previous
matcher is gone (no active pattern, cached pattern cleared), both navigation
buttons are made insensitive, the change is notified, and no error is
surfaced to the user. -/
theorem C8_failed_compile (ok : CompileOracle) (s : PopoverState)
    (hmiss : cacheHit s = false) (htext : s.searchText ≠ "")
    (hfail : ok (derivePattern s) (deriveCaseless s) (deriveMultiline s) = false) :
    (updateRegex ok s).state.regex = none ∧
    (updateRegex ok s).state.regexPattern = none ∧
    (updateRegex ok s).state.prevSensitive = false ∧
    (updateRegex ok s).state.nextSensitive = false ∧
    (updateRegex ok s).notified = true ∧
    (updateRegex ok s).errorSurfaced = false := by
  rw [updateRegex_miss ok s hmiss, if_pos htext,
      if_neg (fun hcontra => Bool.false_ne_true (hfail ▸ hcontra))]
  exact ⟨rfl, rfl, rfl, rfl, rfl, rfl⟩

/-- A popover state about to compile the invalid regex `(`. -/
def c8State : PopoverState :=
  { initialState with searchText := "(", regexMode := true }

/-- Witness for C8: compiling the invalid pattern `(` with an engine that
rejects it leaves no pattern, disabled controls, and no surfaced error. -/
theorem C8_failed_compile_witness :
    (cacheHit c8State = false ∧ c8State.searchText ≠ "" ∧
      okNone (derivePattern c8State) (deriveCaseless c8State) (deriveMultiline c8State)
        = false) ∧
    ((updateRegex okNone c8State).state.regex = none ∧
     (updateRegex okNone c8State).state.regexPattern = none ∧
     (updateRegex okNone c8State).state.prevSensitive = false ∧
     (updateRegex okNone c8State).state.nextSensitive = false ∧
     (updateRegex okNone c8State).notified = true ∧
     (updateRegex okNone c8State).errorSurfaced = false) :=
  ⟨⟨by decide, by decide, rfl⟩,
   C8_failed_compile okNone c8State (by decide) (by decide) rfl⟩

/-! ## C9: unconditional notification on cache miss -/

/-- C9: whenever the derived triple differs from the cached one (the
early-return comparison fails), `update_regex` runs to the end and emits the
pattern-changed notification, regardless of whether the exposed pattern
changed. -/
theorem C9_notify_on_cache_miss (ok : CompileOracle) (s : PopoverState)
    (h : cacheHit s = false) :
    (updateRegex ok s).notified = true ∧ (updateRegex ok s).recompiled = true := by
  rw [updateRegex_miss ok s h]
  exact ⟨rfl, rfl⟩

/-- The state after a failed compilation of the invalid pattern `a(`. -/
def c9Failed : PopoverState := (searchTextChangedCb okNone "a(" initialState).state

/-- Witness for C9: two successive failed compilations of different invalid
patterns both leave the exposed pattern `none`, yet the second one still
notifies. -/
theorem C9_notify_on_cache_miss_witness :
    (cacheHit { c9Failed with searchText := "b(" } = false ∧
      c9Failed.regex = none ∧
      (searchTextChangedCb okNone "b(" c9Failed).state.regex = none ∧
      (searchTextChangedCb okNone "b(" c9Failed).notified =
        (updateRegex okNone { c9Failed with searchText := "b(" }).notified) ∧
    ((updateRegex okNone { c9Failed with searchText := "b(" }).notified = true ∧
     (updateRegex okNone { c9Failed with searchText := "b(" }).recompiled = true) :=
  ⟨⟨by decide, by decide, by decide, rfl⟩,
   C9_notify_on_cache_miss okNone { c9Failed with searchText := "b(" } (by decide)⟩

/-! ## C10: dirty flag cleared even for ineligible terms -/

/-- C10: a dispatch with a compiled pattern and the dirty flag set always
clears the dirty flag, even when the history insertion is a no-op because
history is disabled or the term is at most 3 code points — so the store is
unchanged in those cases and later searches cannot commit the term. -/
theorem C10_dirty_cleared (enabled : Bool) (s : PopoverState) (store : List String)
    (backward : Bool) (hregex : s.regex ≠ none) (hdirty : s.searchTextChanged = true) :
    (performSearch enabled s store backward).state.searchTextChanged = false ∧
    ((enabled = false ∨ (s.searchText.length : Int) ≤ HISTORY_MIN_ITEM_LEN) →
      (performSearch enabled s store backward).store = store) := by
  unfold performSearch
  rw [if_neg hregex, if_pos hdirty]
  refine ⟨rfl, ?_⟩
  intro hcase
  show historyInsertItem enabled s.searchText store = store
  rcases hcase with he | hl
  · subst he; rfl
  · cases enabled with
    | false => rfl
    | true =>
      unfold historyInsertItem
      rw [if_neg (by simp), if_pos hl]

/-! ## C5: empty text yields no pattern (a reachability invariant) -/

/-- `escapeChars` output is empty only for empty input. -/
theorem escapeChars_eq_nil_iff (l : List Char) : escapeChars l = [] ↔ l = [] := by
  cases l with
  | nil => simp [escapeChars]
  | cons c rest =>
    simp only [escapeChars]
    split <;> simp

/-- `escapeChars` never produces exactly the character sequence `\b\b`: in
its output a backslash is followed either by another backslash or by a
metacharacter, never by `b`. -/
theorem escapeChars_ne_bb (l : List Char) :
    escapeChars l ≠ ['\\', 'b', '\\', 'b'] := by
  cases l with
  | nil => simp [escapeChars]
  | cons c rest =>
    simp only [escapeChars]
    split
    next hm =>
      intro h
      obtain ⟨h1, h2⟩ := List.cons.inj h
      obtain ⟨h3, h4⟩ := List.cons.inj h2
      subst h3
      exact absurd hm (by decide)
    next hm =>
      intro h
      obtain ⟨h1, h2⟩ := List.cons.inj h
      subst h1
      exact hm (by decide)

/-- Data of `gRegexEscapeString`. -/
theorem gRegexEscapeString_data (t : String) :
    (gRegexEscapeString t).data = escapeChars t.data := rfl

/-- Data of the string literal `"\\b"`. -/
theorem bb_data : ("\\b" : String).data = ['\\', 'b'] := rfl

/-- String-level: escaping yields the empty string only for empty input. -/
theorem gRegexEscapeString_eq_empty (t : String) (h : gRegexEscapeString t = "") :
    t = "" := by
  have hd : escapeChars t.data = [] := congrArg String.data h
  exact String.ext ((escapeChars_eq_nil_iff t.data).mp hd)

/-- Character-level description of the derived pattern. -/
theorem derivePattern_data (s : PopoverState) :
    (derivePattern s).data =
      if s.entireWord then
        '\\' :: 'b' :: ((if s.regexMode then s.searchText.data
          else escapeChars s.searchText.data) ++ ['\\', 'b'])
      else (if s.regexMode then s.searchText.data else escapeChars s.searchText.data) := by
  unfold derivePattern
  by_cases hw : s.entireWord <;> by_cases hr : s.regexMode <;>
    simp [hw, hr, String.data_append, bb_data, gRegexEscapeString_data]

/-- Character-level description of the derived pattern with regex mode off. -/
theorem derivePattern_data_noRegex (s : PopoverState) (hr : s.regexMode = false) :
    (derivePattern s).data =
      if s.entireWord then
        '\\' :: 'b' :: (escapeChars s.searchText.data ++ ['\\', 'b'])
      else escapeChars s.searchText.data := by
  rw [derivePattern_data]
  simp [hr]

/-- The derived pattern is nonempty whenever the entry text is nonempty. -/
theorem derivePattern_ne_empty (s : PopoverState) (h : s.searchText ≠ "") :
    derivePattern s ≠ "" := by
  intro heq
  have hd : (derivePattern s).data = [] := by rw [heq]
  rw [derivePattern_data] at hd
  by_cases hw : s.entireWord
  · rw [if_pos hw] at hd
    exact absurd hd (by simp)
  · rw [if_neg hw] at hd
    by_cases hr : s.regexMode
    · rw [if_pos hr] at hd
      exact h (String.ext hd)
    · rw [if_neg hr] at hd
      exact h (String.ext ((escapeChars_eq_nil_iff _).mp hd))

/-- If regex mode is off, the derived pattern equals `\b\b` only when the
entry text is empty. -/
theorem derivePattern_eq_bb (s : PopoverState) (hr : s.regexMode = false)
    (h : derivePattern s = "\\b\\b") : s.searchText = "" := by
  have hd : (derivePattern s).data = ['\\', 'b', '\\', 'b'] := by rw [h]
  rw [derivePattern_data_noRegex s hr] at hd
  by_cases hw : s.entireWord
  · rw [if_pos hw] at hd
    obtain ⟨h1, hd2⟩ := List.cons.inj hd
    obtain ⟨h2, hd3⟩ := List.cons.inj hd2
    have hnil : escapeChars s.searchText.data = [] := by
      cases he : escapeChars s.searchText.data with
      | nil => rfl
      | cons a as =>
        rw [he] at hd3
        have hlen := congrArg List.length hd3
        simp [List.length_append] at hlen
    exact String.ext ((escapeChars_eq_nil_iff _).mp hnil)
  · rw [if_neg hw] at hd
    exact absurd hd (escapeChars_ne_bb _)

/-- The invariant of reachable popover states used to verify the empty-text
behaviour: the cached flag fields stay FALSE (they are never assigned); the
cached pattern is never the empty pattern; the cached pattern is `\b\b` only
in regex mode (where the stuck multiline field forces the next call to miss)
or when no matcher exists; and an empty entry never has a live matcher. -/
def GoodState (s : PopoverState) : Prop :=
  s.regexCaseless = false ∧
  s.regexMultiline = false ∧
  s.regexPattern ≠ some "" ∧
  (s.regexPattern = some "\\b\\b" → s.regexMode = true ∨ s.regex = none) ∧
  (s.searchText = "" → s.regex = none)

/-- One `update_regex` call preserves (a slightly weakened form of) the
invariant. -/
theorem goodState_updateRegex (ok : CompileOracle) (s : PopoverState)
    (h1 : s.regexCaseless = false) (h2 : s.regexMultiline = false)
    (h3 : s.regexPattern ≠ some "")
    (hA : s.regexPattern = some "\\b\\b" →
      s.regexMode = true ∨ s.regex = none ∨ s.searchText ≠ "") :
    GoodState (updateRegex ok s).state := by
  cases hc : cacheHit s with
  | true =>
    rw [updateRegex_hit ok s hc]
    have hc' := hc
    unfold cacheHit at hc'
    simp only [Bool.and_eq_true, beq_iff_eq] at hc'
    obtain ⟨⟨e1, e2⟩, e3⟩ := hc'
    have hrm : s.regexMode = false := e2.symm.trans h2
    refine ⟨h1, h2, h3, ?_, ?_⟩
    · intro hp
      have hdp : derivePattern s = "\\b\\b" := by
        rw [e3] at hp
        exact Option.some.inj hp
      have htext : s.searchText = "" := derivePattern_eq_bb s hrm hdp
      rcases hA hp with hm | hn | ht
      · rw [hm] at hrm; exact absurd hrm (by decide)
      · exact Or.inr hn
      · exact absurd htext ht
    · intro he
      by_cases hw : s.entireWord
      · have hdp : derivePattern s = "\\b\\b" := by
          apply String.ext
          rw [derivePattern_data_noRegex s hrm, if_pos hw, he]
          rfl
        have hp : s.regexPattern = some "\\b\\b" := by rw [e3, hdp]
        rcases hA hp with hm | hn | ht
        · rw [hm] at hrm; exact absurd hrm (by decide)
        · exact hn
        · exact absurd he ht
      · exfalso
        apply h3
        rw [e3]
        congr 1
        apply String.ext
        rw [derivePattern_data_noRegex s hrm, if_neg hw, he]
        rfl
  | false =>
    rw [updateRegex_miss ok s hc]
    by_cases ht : s.searchText ≠ ""
    · rw [if_pos ht]
      cases hok : ok (derivePattern s) (deriveCaseless s) (deriveMultiline s) with
      | true =>
        rw [if_pos rfl]
        refine ⟨h1, h2, ?_, ?_, ?_⟩
        · intro hcontra
          exact derivePattern_ne_empty s ht (Option.some.inj hcontra)
        · intro hp
          have hdp := Option.some.inj hp
          cases hrm : s.regexMode with
          | true => exact Or.inl rfl
          | false => exact absurd (derivePattern_eq_bb s hrm hdp) ht
        · intro he
          exact absurd he ht
      | false =>
        rw [if_neg Bool.false_ne_true]
        exact ⟨h1, h2, by simp [updateSensitivity], by simp [updateSensitivity], fun _ => rfl⟩
    · rw [if_neg ht]
      exact ⟨h1, h2, by simp [updateSensitivity], by simp [updateSensitivity], fun _ => rfl⟩

/-- Every UI event preserves the invariant. -/
theorem goodState_step (ok : CompileOracle) (s : PopoverState) (a : Action)
    (h : GoodState s) : GoodState (step ok s a) := by
  obtain ⟨h1, h2, h3, h4, h5⟩ := h
  cases a with
  | setText t =>
    exact goodState_updateRegex ok { s with searchText := t } h1 h2 h3
      (fun hp => (h4 hp).imp id Or.inl)
  | toggleMatchCase b =>
    exact goodState_updateRegex ok { s with matchCase := b } h1 h2 h3
      (fun hp => (h4 hp).imp id Or.inl)
  | toggleEntireWord b =>
    exact goodState_updateRegex ok { s with entireWord := b } h1 h2 h3
      (fun hp => (h4 hp).imp id Or.inl)
  | toggleRegexMode b =>
    refine goodState_updateRegex ok { s with regexMode := b } h1 h2 h3 ?_
    intro hp
    rcases h4 hp with hm | hn
    · by_cases hx : s.regex = none
      · exact Or.inr (Or.inl hx)
      · exact Or.inr (Or.inr (fun he => hx (h5 he)))
    · exact Or.inr (Or.inl hn)
  | doSearch enabled backward =>
    show GoodState (performSearch enabled s [] backward).state
    unfold performSearch
    split
    · exact ⟨h1, h2, h3, h4, h5⟩
    · split
      · exact ⟨h1, h2, h3, h4, h5⟩
      · exact ⟨h1, h2, h3, h4, h5⟩

/-- Every reachable popover state satisfies the invariant. -/
theorem goodState_reachable (ok : CompileOracle) {s : PopoverState}
    (h : Reachable ok s) : GoodState s := by
  induction h with
  | init =>
    exact ⟨rfl, rfl, by simp [initialState], by simp [initialState], fun _ => rfl⟩
  | succ hr a ih => exact goodState_step ok _ a ih

/-- C5: on every reachable popover state, an empty raw search text means
there is no active compiled pattern, whatever the option flags; in
particular clearing the entry text always leaves `regex = none`, the
previously compiled matcher having been released. -/
theorem C5_empty_text_no_pattern (ok : CompileOracle) (s : PopoverState)
    (h : Reachable ok s) :
    (s.searchText = "" → s.regex = none) ∧
    (step ok s (Action.setText "")).regex = none := by
  constructor
  · exact fun he => (goodState_reachable ok h).2.2.2.2 he
  · refine (goodState_reachable ok (Reachable.succ h (Action.setText ""))).2.2.2.2 ?_
    exact updateRegex_state_searchText ok { s with searchText := "" }

/-- A concrete reachable state: type `abcd`, then enable regex mode (the
matcher is then live). -/
def c5Reached : PopoverState :=
  step okAll (step okAll initialState (Action.setText "abcd")) (Action.toggleRegexMode true)

/-- Witness for C5: on the concrete reachable state holding a live matcher
for `abcd`, clearing the text yields no pattern. -/
theorem C5_empty_text_no_pattern_witness :
    ((c5Reached.searchText = "" → c5Reached.regex = none) ∧
      (step okAll c5Reached (Action.setText "")).regex = none) ∧
    c5Reached.regex = some { pattern := "abcd", caseless := true, multiline := true } :=
  ⟨C5_empty_text_no_pattern okAll c5Reached
      (Reachable.succ (Reachable.succ Reachable.init (Action.setText "abcd"))
        (Action.toggleRegexMode true)),
   by decide⟩

/-- A dirty popover state whose term "abc" is too short for the history. -/
def c10State : PopoverState :=
  { initialState with
    searchText := "abc", searchTextChanged := true,
    regex := some { pattern := "abc", caseless := true, multiline := false } }

/-- Witness for C10: dispatching with the 3-code-point term "abc" clears the
dirty flag while leaving the history store unchanged. -/
theorem C10_dirty_cleared_witness :
    (c10State.regex ≠ none ∧ c10State.searchTextChanged = true ∧
      ("abc".length : Int) ≤ HISTORY_MIN_ITEM_LEN) ∧
    (performSearch true c10State ["seed"] false).state.searchTextChanged = false ∧
    (performSearch true c10State ["seed"] false).store = ["seed"] :=
  ⟨⟨by decide, rfl, by decide⟩,
   (C10_dirty_cleared true c10State ["seed"] false (by decide) rfl).1,
   (C10_dirty_cleared true c10State ["seed"] false (by decide) rfl).2
     (Or.inr (by decide))⟩

end SearchPopover
